import Mathlib

/-!
Verification of the node-wgpu CTS shim (src/cts.js).

The shim exports a constant `create`, monkey-patches the binding with an
empty adapter feature set, a never-resolving `lost` promise and no-op
error-scope methods, and (in the accompanying capture snippet) computes
256-byte row padding for buffer-backed texture copies via `getRowPadding`,
`createCapture` and `copyToBuffer`.  The definitions below are a shallow
embedding of that code: pure functions become Lean functions on `Nat`
(JS numbers are nonnegative integers at every call site here), and each
side-effecting call is embedded as the record of arguments it passes on.
-/

namespace NodeWgpu

/-- Buffer-usage flag bits.  These constants come from the native binding
loaded by `require("./")`, which is not part of the shown source; the
numeric values are the WebGPU-standard bit assignments.  Modelled from the
spec: `usage` is a bit-set of allowed operations (MAP_READ, COPY_DST, ...). -/
def GPUBufferUsage.MAP_READ : Nat := 1

/-- WebGPU-standard COPY_DST buffer-usage bit (see `GPUBufferUsage.MAP_READ`). -/
def GPUBufferUsage.COPY_DST : Nat := 8

/-- WebGPU-standard COPY_SRC texture-usage bit (see `GPUBufferUsage.MAP_READ`). -/
def GPUTextureUsage.COPY_SRC : Nat := 1

/-- WebGPU-standard RENDER_ATTACHMENT texture-usage bit (see
`GPUBufferUsage.MAP_READ`). -/
def GPUTextureUsage.RENDER_ATTACHMENT : Nat := 16

/-- The `dimensions` objects of cts.js: `{ width, height }`. -/
structure Dimensions where
  width : Nat
  height : Nat
deriving DecidableEq, Repr

/-- The return value of `getRowPadding`: `{ unpadded, padded }`. -/
structure RowPadding where
  unpadded : Nat
  padded : Nat
deriving DecidableEq, Repr

/-- Embedding of `getRowPadding(width)` from src/cts.js lines 155-170:
rounds `width * 4` up to the next multiple of 256 by adding
`(256 - unpadded % 256) % 256`. -/
def getRowPadding (width : Nat) : RowPadding :=
  let bytesPerPixel := 4
  let unpaddedBytesPerRow := width * bytesPerPixel
  let align := 256
  let paddedBytesPerRowPadding := (align - unpaddedBytesPerRow % align) % align
  let paddedBytesPerRow := unpaddedBytesPerRow + paddedBytesPerRowPadding
  { unpadded := unpaddedBytesPerRow
    padded := paddedBytesPerRow }

/-- The descriptor `createCapture` passes to `device.createBuffer`. -/
structure BufferDescriptor where
  label : String
  size : Nat
  usage : Nat
deriving DecidableEq, Repr

/-- The descriptor `createCapture` passes to `device.createTexture`. -/
structure TextureDescriptor where
  label : String
  size : Dimensions
  format : String
  usage : Nat
deriving DecidableEq, Repr

/-- The pair of objects `createCapture` returns (embedded as the
descriptors it hands to the device, since the native creation calls are
external). -/
structure CaptureResult where
  outputBuffer : BufferDescriptor
  texture : TextureDescriptor
deriving DecidableEq, Repr

/-- Embedding of `createCapture(device, dimensions)` from src/cts.js lines
139-153: the output buffer has size `padded * dimensions.height` and usage
`MAP_READ | COPY_DST`; the texture has the given dimensions, format
`rgba8unorm-srgb` and usage `RENDER_ATTACHMENT | COPY_SRC`. -/
def createCapture (dimensions : Dimensions) : CaptureResult :=
  let padded := (getRowPadding dimensions.width).padded
  { outputBuffer :=
      { label := "Capture"
        size := padded * dimensions.height
        usage := GPUBufferUsage.MAP_READ ||| GPUBufferUsage.COPY_DST }
    texture :=
      { label := "Capture"
        size := dimensions
        format := "rgba8unorm-srgb"
        usage := GPUTextureUsage.RENDER_ATTACHMENT ||| GPUTextureUsage.COPY_SRC } }

/-- The buffer-side copy view `copyToBuffer` passes as the second argument
of `encoder.copyTextureToBuffer`. -/
structure BufferCopyView where
  bytesPerRow : Nat
  rowsPerImage : Nat
deriving DecidableEq, Repr

/-- The full argument record of the `copyTextureToBuffer` call made by
`copyToBuffer`. -/
structure CopyTextureToBufferCall where
  destination : BufferCopyView
  copySize : Dimensions
deriving DecidableEq, Repr

/-- Embedding of `copyToBuffer(encoder, texture, buffer, dimensions)` from
src/cts.js lines 172-179, as the arguments it passes to
`encoder.copyTextureToBuffer`: `bytesPerRow` is `getRowPadding(width).padded`
and `rowsPerImage` is 0. -/
def copyToBuffer (dimensions : Dimensions) : CopyTextureToBufferCall :=
  let padded := (getRowPadding dimensions.width).padded
  { destination := { bytesPerRow := padded, rowsPerImage := 0 }
    copySize := dimensions }

/-- WebGPU error-scope filters. -/
inductive GPUErrorFilter
  | validation
  | outOfMemory
  | internal
deriving DecidableEq, Repr

/-- The observable outcome of a `popErrorScope()` call: either a usage
error raised outside the scope mechanism (in JS, a thrown exception or a
rejected promise), or resolution with an optional captured error
(`none` models the no-error resolution; the stub returns `undefined`,
which an awaiting caller observes as the no-error result). -/
inductive PopOutcome
  | usageError
  | resolved (error : Option String)
deriving DecidableEq, Repr

/-- The device error-scope stack.  A conformant implementation keeps a
most-recent-first stack of filters; the shim's stubs never create or touch
any such state on the device. -/
abbrev ErrorScopeStack := List GPUErrorFilter

/-- Embedding of `GPUDevice.prototype.pushErrorScope = () => {}` from
src/cts.js line 8: a stub that ignores its filter and leaves any
error-scope state unchanged. -/
def pushErrorScope (_filter : GPUErrorFilter) (stack : ErrorScopeStack) :
    ErrorScopeStack :=
  stack

/-- Embedding of `GPUDevice.prototype.popErrorScope = () => {}` from
src/cts.js line 9: a stub that pops nothing, never throws, and returns
`undefined` (observed by an awaiting caller as the no-error resolution). -/
def popErrorScope (stack : ErrorScopeStack) : ErrorScopeStack × PopOutcome :=
  (stack, PopOutcome.resolved none)

/-- Embedding of the executor of the promise installed by
`GPUDevice.prototype.lost = new Promise(() => {})` in src/cts.js line 7:
the executor body is empty, so it never invokes the `resolve` callback it
is given.  `resolve` is modelled as a function that would append a
resolution event to a log. -/
def lostExecutor (_resolve : String → List String → List String)
    (resolutions : List String) : List String :=
  resolutions

/-- The list of resolution events the `lost` promise ever produces:
the executor run with a recording `resolve` on an empty log. -/
def lostResolutions : List String :=
  lostExecutor (fun reason log => log ++ [reason]) []

/-- The single module object `require("./")` evaluates to in src/cts.js
line 3 (an identity-carrying handle: two references are equal exactly when
they denote the same object). -/
structure GpuModule where
  moduleId : Nat
deriving DecidableEq, Repr

/-- The one gpu module object of the process. -/
def gpu : GpuModule := { moduleId := 0 }

/-- Embedding of `exports.create = (flags) => gpu` from src/cts.js line 4. -/
def create (_flags : String) : GpuModule :=
  gpu

/-- The host-visible state the cts.js module installs: the adapter feature
set (`GPUAdapter.prototype.features = new Set()`, so empty and shared) and
the device error-scope state the stubbed methods act on. -/
structure ModuleState where
  adapterFeatures : List String
  errorScopeStack : ErrorScopeStack
deriving DecidableEq, Repr

/-- The state right after the module's top-level assignments run. -/
def initialState : ModuleState :=
  { adapterFeatures := [], errorScopeStack := [] }

/-- The operations the cts.js module exposes after load. -/
inductive Op
  | createOp (flags : String)
  | pushErrorScopeOp (filter : GPUErrorFilter)
  | popErrorScopeOp
  | getRowPaddingOp (width : Nat)
  | createCaptureOp (dims : Dimensions)
  | copyToBufferOp (dims : Dimensions)
deriving DecidableEq, Repr

/-- Effect of one module operation on the host-visible state, read off the
source: `create` returns the module object and writes nothing;
`pushErrorScope`/`popErrorScope` are the stubs above; `getRowPadding`,
`createCapture` and `copyToBuffer` are pure computations handing
descriptors to the external device/encoder. -/
def step (op : Op) (s : ModuleState) : ModuleState :=
  match op with
  | Op.createOp _ => s
  | Op.pushErrorScopeOp f => { s with errorScopeStack := pushErrorScope f s.errorScopeStack }
  | Op.popErrorScopeOp => { s with errorScopeStack := (popErrorScope s.errorScopeStack).1 }
  | Op.getRowPaddingOp _ => s
  | Op.createCaptureOp _ => s
  | Op.copyToBufferOp _ => s

/-- Running a whole sequence of module operations. -/
def run (ops : List Op) (s : ModuleState) : ModuleState :=
  List.foldl (fun t op => step op t) s ops

lemma step_adapterFeatures (op : Op) (s : ModuleState) :
    (step op s).adapterFeatures = s.adapterFeatures := by
  cases op <;> rfl

/-- Claim C1: for every width, `getRowPadding` returns
`unpadded = width * 4` and
`padded = unpadded + ((256 - unpadded % 256) % 256)`, exactly the spec's
row-size formula. -/
theorem getRowPadding_matches_spec_formula (width : Nat) :
    getRowPadding width =
      { unpadded := width * 4
        padded := width * 4 + ((256 - (width * 4) % 256) % 256) } :=
  rfl

/-- Claim C2: at width 200 (the README's dimensions are 200 by 200),
`getRowPadding` returns unpadded 800 and padded 1024, and 1024 — never
800 — is the `bytesPerRow` that `copyToBuffer` passes to
`copyTextureToBuffer`. -/
theorem copyToBuffer_width200_bytesPerRow_1024 :
    getRowPadding 200 = { unpadded := 800, padded := 1024 } ∧
    (copyToBuffer { width := 200, height := 200 }).destination.bytesPerRow = 1024 ∧
    (copyToBuffer { width := 200, height := 200 }).destination.bytesPerRow ≠ 800 := by
  refine ⟨rfl, rfl, ?_⟩
  decide

/-- Claim C3: for every width at least 1 (and any height), the
`bytesPerRow` that `copyToBuffer` supplies is a multiple of 256 and is at
least `bytesPerPixel * width` with `bytesPerPixel = 4`. -/
theorem copyToBuffer_bytesPerRow_validation (w h : Nat) (hw : 1 ≤ w) :
    (copyToBuffer { width := w, height := h }).destination.bytesPerRow % 256 = 0 ∧
    4 * w ≤ (copyToBuffer { width := w, height := h }).destination.bytesPerRow := by
  show (w * 4 + (256 - (w * 4) % 256) % 256) % 256 = 0 ∧
    4 * w ≤ w * 4 + (256 - (w * 4) % 256) % 256
  omega

/-- Witness for C3 at width 200, height 200. -/
theorem copyToBuffer_bytesPerRow_validation_witness :
    (copyToBuffer { width := 200, height := 200 }).destination.bytesPerRow % 256 = 0 ∧
    4 * 200 ≤ (copyToBuffer { width := 200, height := 200 }).destination.bytesPerRow :=
  copyToBuffer_bytesPerRow_validation 200 200 (by decide)

/-- Claim C4: pushing an error scope with any filter and, with no error
triggered in between, popping it resolves with the no-error result. -/
theorem push_then_pop_resolves_no_error (f : GPUErrorFilter) (stack : ErrorScopeStack) :
    (popErrorScope (pushErrorScope f stack)).2 = PopOutcome.resolved none :=
  rfl

/-- Counterexample for claim C5: popping with an empty scope stack is not
a usage error — the stub silently resolves with the no-error result and
leaves the (empty) stack in place. -/
theorem popErrorScope_empty_stack_is_silent :
    popErrorScope ([] : ErrorScopeStack) =
      (([] : ErrorScopeStack), PopOutcome.resolved none) ∧
    PopOutcome.resolved none ≠ PopOutcome.usageError := by
  exact ⟨rfl, by decide⟩

/-- Claim C5 amended: `popErrorScope` is a stateless no-op — it pops no
scope and always resolves with the no-error result regardless of what was
pushed or raised; in particular, calling it with an empty scope stack
silently resolves with no error instead of reporting a usage error. -/
theorem popErrorScope_is_noop (stack : ErrorScopeStack) :
    popErrorScope stack = (stack, PopOutcome.resolved none) :=
  rfl

/-- Counterexample for claim C6: the `lost` promise produces zero
resolution events, not exactly one. -/
theorem lost_never_resolves_counterexample :
    lostResolutions.length = 0 ∧ lostResolutions.length ≠ 1 := by
  decide

/-- Claim C6 amended: `lost` is a never-resolving future — its executor
never invokes the `resolve` callback it is handed, so the promise stays
pending forever, even when the device becomes unusable. -/
theorem lost_executor_never_resolves :
    (∀ (resolve : String → List String → List String) (log : List String),
      lostExecutor resolve log = log) ∧
    lostResolutions = [] :=
  ⟨fun _ _ => rfl, rfl⟩

/-- Claim C7: the adapter feature set is immutable after discovery — no
sequence of module operations (on adapters, devices or anything else the
shim exposes) changes the observed `adapterFeatures` component of the
state. -/
theorem adapterFeatures_immutable (ops : List Op) (s : ModuleState) :
    (run ops s).adapterFeatures = s.adapterFeatures := by
  induction ops generalizing s with
  | nil => rfl
  | cons op rest ih =>
      show (run rest (step op s)).adapterFeatures = s.adapterFeatures
      rw [ih (step op s), step_adapterFeatures]

/-- Claim C8: padding is idempotent — when `width * 4` is already a
multiple of 256, `padded` equals `unpadded`, and applying the padding
computation to the already-padded row size leaves it unchanged. -/
theorem getRowPadding_idempotent (width : Nat)
    (h : (getRowPadding width).unpadded % 256 = 0) :
    (getRowPadding width).padded = (getRowPadding width).unpadded ∧
    (getRowPadding width).padded +
      (256 - (getRowPadding width).padded % 256) % 256 =
      (getRowPadding width).padded := by
  have hu : (getRowPadding width).unpadded = width * 4 := rfl
  have hp : (getRowPadding width).padded =
      width * 4 + (256 - (width * 4) % 256) % 256 := rfl
  rw [hu] at h
  constructor
  · rw [hp, hu]
    omega
  · rw [hp]
    omega

/-- Witness for C8 at width 64, where the unpadded row size is exactly
256. -/
theorem getRowPadding_idempotent_witness :
    (getRowPadding 64).unpadded % 256 = 0 ∧
    (getRowPadding 64).padded = (getRowPadding 64).unpadded :=
  ⟨by decide, (getRowPadding_idempotent 64 (by decide)).1⟩

/-- Claim C9: for positive dimensions, the capture buffer's size is
exactly `getRowPadding(width).padded * height`, which equals
`bytesPerRow * height` for the `bytesPerRow` that `copyToBuffer` encodes,
so the copy destination region fits the buffer created for it. -/
theorem createCapture_size_matches_copy (w h : Nat) (hw : 1 ≤ w) (hh : 1 ≤ h) :
    (createCapture { width := w, height := h }).outputBuffer.size =
      (getRowPadding w).padded * h ∧
    (createCapture { width := w, height := h }).outputBuffer.size =
      (copyToBuffer { width := w, height := h }).destination.bytesPerRow * h ∧
    (copyToBuffer { width := w, height := h }).destination.bytesPerRow * h ≤
      (createCapture { width := w, height := h }).outputBuffer.size :=
  ⟨rfl, rfl, Nat.le_refl _⟩

/-- Witness for C9 at the README's dimensions, 200 by 200. -/
theorem createCapture_size_matches_copy_witness :
    (createCapture { width := 200, height := 200 }).outputBuffer.size =
      (getRowPadding 200).padded * 200 ∧
    (createCapture { width := 200, height := 200 }).outputBuffer.size =
      (copyToBuffer { width := 200, height := 200 }).destination.bytesPerRow * 200 ∧
    (copyToBuffer { width := 200, height := 200 }).destination.bytesPerRow * 200 ≤
      (createCapture { width := 200, height := 200 }).outputBuffer.size :=
  createCapture_size_matches_copy 200 200 (by decide) (by decide)

/-- Claim C10: the exported `create` function is constant — for any two
flag values it returns the same gpu module object, so the result is
independent of the flags argument. -/
theorem create_is_constant (f1 f2 : String) :
    create f1 = create f2 :=
  rfl

end NodeWgpu
